import Mathlib

/-!
Shallow embedding of `src/scraper/keywordToolScraper.js` (multi-account
authenticated scraping orchestrator) together with the parts of
`src/config.js` it reads.

Modelling choices:
* The file system holding the per-account cookie files is an association
  list from file path to `FileContent`.  A file written by `saveCookies`
  holds the serialized JSON object `{ cookies, userAgent }`; a file whose
  content `JSON.parse` rejects is modelled by `FileContent.corrupt`, and a
  parseable JSON value of some other shape by `FileContent.json` with
  absent (`none`) fields.
* Browser / page behaviour during one account attempt (which DOM elements
  are visible, whether the post-submit navigation happened, the result
  rows of the table, hard playwright failures, ...) is an `AttemptEnv`
  value supplied from outside, one per attempt, mirroring the reads the
  source performs on the live page.
* Mutable effects (file writes, deletes) are explicit state passing on
  `St`; `St.saveLog` records every invocation of `saveCookies`, in order,
  so that "save was (not) invoked" is a statement about the model.
* `config.keywordToolAccounts` is carried in `St.configAccounts`, since in
  the source it is a mutable module-level array that `scrapeKeywords`
  clones before sorting.
-/

namespace KT

/-- One configured account (`config.keywordToolAccounts` entry). -/
structure Account where
  email : String
  password : String
  cookieFile : String
deriving Repr, DecidableEq

/-- Content of a persisted cookie file.  `json c ua` is a parseable JSON
value whose `cookies` / `userAgent` members are present or absent;
`corrupt` is content `JSON.parse` throws on. -/
inductive FileContent where
  | json (cookies : Option (List String)) (userAgent : Option String)
  | corrupt (raw : String)
deriving Repr, DecidableEq

/-- What `loadCookies` hands back to its caller when the file parses. -/
structure SessionData where
  cookies : Option (List String)
  userAgent : Option String
deriving Repr, DecidableEq

/-- Global mutable state threaded through the orchestrator. -/
structure St where
  files : List (String × FileContent)
  saveLog : List String
  configAccounts : List Account
deriving Repr, DecidableEq

/-- Association-list lookup of a file's content (`fs.existsSync` +
`fs.readFileSync`). -/
def lookupFile (f : String) (files : List (String × FileContent)) :
    Option FileContent :=
  (files.find? (fun p => p.1 == f)).map (fun p => p.2)

/-- Model of `fs.existsSync(cookieFile)`. -/
def fileExists (f : String) (st : St) : Bool :=
  (lookupFile f st.files).isSome

/-- Model of `loadCookies(cookieFile)`: missing file or any read/parse error yields
`null` (modelled `none`); otherwise the parsed JSON value. -/
def loadCookies (f : String) (st : St) : Option SessionData :=
  match lookupFile f st.files with
  | none => none
  | some (FileContent.json c ua) => some ⟨c, ua⟩
  | some (FileContent.corrupt _) => none

/-- Model of `saveCookies(cookieFile, cookies, userAgent)`: overwrite the file with
the serialized `{ cookies, userAgent }` record, and log the invocation. -/
def saveCookies (f : String) (cookies : List String) (userAgent : String)
    (st : St) : St :=
  { st with
    files := (f, FileContent.json (some cookies) (some userAgent)) ::
      st.files.filter (fun p => p.1 != f)
    saveLog := st.saveLog ++ [f] }

/-- Model of `deleteCookies(cookieFile)`: unlink the file if it exists (errors are
swallowed). -/
def deleteCookies (f : String) (st : St) : St :=
  { st with files := st.files.filter (fun p => p.1 != f) }

theorem lookupFile_save_self (f : String) (c : List String) (ua : String)
    (st : St) :
    lookupFile f (saveCookies f c ua st).files =
      some (FileContent.json (some c) (some ua)) := by
  simp [lookupFile, saveCookies]

theorem lookupFile_delete_self (f : String) (st : St) :
    lookupFile f (deleteCookies f st).files = none := by
  simp only [lookupFile, deleteCookies]
  have h : (st.files.filter (fun p => p.1 != f)).find? (fun p => p.1 == f)
      = none := by
    rw [List.find?_eq_none]
    intro p hp
    have := List.of_mem_filter hp
    simpa using this
  simp [h]

/-- C9: Session Store round-trip.  Saving then loading yields exactly the
saved cookies and browser identity; deleting then loading yields absent
(`none`); and on a missing or corrupt persisted record `loadCookies`
behaves as absent rather than failing the caller. -/
theorem C9_session_store_roundtrip (f : String) (c : List String)
    (ua : String) (st : St) :
    loadCookies f (saveCookies f c ua st) = some ⟨some c, some ua⟩ ∧
    loadCookies f (deleteCookies f st) = none ∧
    ((lookupFile f st.files = none ∨
        ∃ raw, lookupFile f st.files = some (FileContent.corrupt raw)) →
      loadCookies f st = none) := by
  refine ⟨?_, ?_, ?_⟩
  · have h := lookupFile_save_self f c ua st
    simp only [loadCookies]
    rw [show lookupFile f (saveCookies f c ua st).files
        = lookupFile f ((saveCookies f c ua st) : St).files from rfl, h]
  · simp only [loadCookies]
    rw [show lookupFile f (deleteCookies f st).files
        = lookupFile f ((deleteCookies f st) : St).files from rfl,
      lookupFile_delete_self f st]
  · intro h
    rcases h with h | ⟨raw, h⟩ <;> simp [loadCookies, h]

/-- Witness for C9 at a concrete store holding a corrupt record. -/
theorem C9_session_store_roundtrip_witness :
    loadCookies "a.json" (saveCookies "a.json" ["c1"] "UA"
        ⟨[("a.json", FileContent.corrupt "xx")], [], []⟩) =
      some ⟨some ["c1"], some "UA"⟩ ∧
    loadCookies "a.json" (deleteCookies "a.json"
        ⟨[("a.json", FileContent.corrupt "xx")], [], []⟩) = none ∧
    loadCookies "a.json" ⟨[("a.json", FileContent.corrupt "xx")], [], []⟩
      = none := by
  have h := C9_session_store_roundtrip "a.json" ["c1"] "UA"
    ⟨[("a.json", FileContent.corrupt "xx")], [], []⟩
  exact ⟨h.1, h.2.1, h.2.2 (Or.inr ⟨"xx", by decide⟩)⟩

/-! ## Extraction engine (`extractKeywords`) -/

/-- Boolean prefix test on character lists. -/
def listStartsWith : List Char → List Char → Bool
  | [], _ => true
  | _ :: _, [] => false
  | c :: cs, d :: ds => c == d && listStartsWith cs ds

/-- Boolean infix test on character lists. -/
def listHasInfix (pat : List Char) : List Char → Bool
  | [] => listStartsWith pat []
  | c :: cs => listStartsWith pat (c :: cs) || listHasInfix pat cs

/-- JS `s.includes(pat)`: substring test. -/
def strIncludes (s pat : String) : Bool :=
  listHasInfix pat.toList s.toList

/-- JS `s.trim()`: strip leading and trailing whitespace. -/
def strTrim (s : String) : String :=
  String.mk
    (((s.toList.dropWhile Char.isWhitespace).reverse.dropWhile
        Char.isWhitespace).reverse)

/-- JS `s.toLowerCase()`. -/
def strToLower (s : String) : String :=
  String.mk (s.toList.map Char.toLower)

/-- One `<td>` cell as read by the in-page extraction script. -/
structure Cell where
  text : String
  classes : List String
  innerHTML : String
  hasBlurDescendant : Bool
deriving Repr, DecidableEq

/-- One `<tr>` row of the results table. -/
structure Row where
  hasColspanCell : Bool
  cells : List Cell
deriving Repr, DecidableEq

/-- A keyword record produced by the extraction script. -/
structure KeywordRecord where
  keyword : String
  searchVolume : Int
  searchVolumeFormatted : String
  trend : String
  isDataAvailable : Bool
deriving Repr, DecidableEq

/-- Redaction detection on one cell: `blur` class token, `blur` anywhere in
the innerHTML, or a nested `.blur` descendant. -/
def cellBlurred (c : Cell) : Bool :=
  c.classes.contains "blur" || strIncludes c.innerHTML "blur" ||
    c.hasBlurDescendant

/-- Leading decimal digits of a character list, `none` when the first
character is not a digit (the `isNaN(parseInt(...))` case). -/
def leadingNat : List Char → Option Nat
  | l =>
    match l.takeWhile Char.isDigit with
    | [] => none
    | ds => some (ds.foldl (fun a c => 10 * a + (c.toNat - 48)) 0)

/-- JS `parseInt(s, 10)` on an already whitespace-free string: optional
sign then leading digits; `none` models `NaN`. -/
def jsParseInt (s : String) : Option Int :=
  match s.toList with
  | [] => none
  | c :: rest =>
    if c = '-' then (leadingNat rest).map (fun n => -(n : Int))
    else if c = '+' then (leadingNat rest).map (fun n => (n : Int))
    else (leadingNat (c :: rest)).map (fun n => (n : Int))

/-- Model of `volumeText.replace(/,/g,'').replace(/\s/g,'')`. -/
def cleanVolumeText (s : String) : String :=
  String.mk (s.toList.filter (fun ch => ch ≠ ',' && !ch.isWhitespace))

/-- Model of `searchVolume` as computed from the (possibly overridden) volume text:
strip commas and whitespace, then `parseInt`; non-numeric yields 0. -/
def volumeOfText (volumeText : String) : Int :=
  if volumeText ≠ "-" then
    match jsParseInt (cleanVolumeText volumeText) with
    | some n => n
    | none => 0
  else 0

/-- The keyword text of a row: `cells[1].textContent.trim()` (empty when
the cell is missing). -/
def rowKeyword (row : Row) : String :=
  ((row.cells.get? 1).map (fun c => strTrim c.text)).getD ""

/-- Redaction state of the volume cell `cells[2]`. -/
def rowVolumeBlurred (row : Row) : Bool :=
  ((row.cells.get? 2).map cellBlurred).getD false

/-- The volume text after the blur override: `'-'` when redacted. -/
def rowVolumeText (row : Row) : String :=
  if rowVolumeBlurred row then "-"
  else ((row.cells.get? 2).map (fun c => strTrim c.text)).getD "-"

/-- The trend cell `cells[3]` when the row has more than 3 cells. -/
def rowTrendCell (row : Row) : Option Cell :=
  if row.cells.length > 3 then row.cells.get? 3 else none

/-- The trend text after the blur override. -/
def rowTrendText (row : Row) : String :=
  if ((rowTrendCell row).map cellBlurred).getD false then "-"
  else ((rowTrendCell row).map (fun c => strTrim c.text)).getD "-"

/-- The per-row body of the in-page `rows.forEach` extraction script. -/
def extractRow (row : Row) : Option KeywordRecord :=
  if row.hasColspanCell then none
  else if row.cells.length < 3 then none
  else if rowKeyword row = "" then none
  else
    some
      { keyword := rowKeyword row
        searchVolume := volumeOfText (rowVolumeText row)
        searchVolumeFormatted := rowVolumeText row
        trend := if rowTrendText row = "" then "-" else rowTrendText row
        isDataAvailable := !rowVolumeBlurred row }

/-- Model of `extractKeywords(page)`: when no table row ever appears the function
returns `[]`; otherwise each row is mapped through the extraction script,
rows without a keyword or of placeholder shape being skipped. -/
def extractKeywords (rows : List Row) : List KeywordRecord :=
  if rows.isEmpty then []
  else rows.filterMap extractRow

/-- C4: every record produced by the extraction engine with
`isDataAvailable = false` (a volume cell carrying a redaction marker) has
`searchVolume = 0` and the placeholder display string `"-"`, irrespective
of the literal text in the cell. -/
theorem extractRow_some_shape (row : Row) (r : KeywordRecord)
    (h : extractRow row = some r) :
    r.searchVolume = volumeOfText (rowVolumeText row) ∧
    r.searchVolumeFormatted = rowVolumeText row ∧
    r.isDataAvailable = !rowVolumeBlurred row := by
  unfold extractRow at h
  split at h
  · exact absurd h (by simp)
  · split at h
    · exact absurd h (by simp)
    · split at h
      · exact absurd h (by simp)
      · cases Option.some.inj h
        exact ⟨rfl, rfl, rfl⟩

/-- C4: every record produced by the extraction engine with
`isDataAvailable = false` (a volume cell carrying a redaction marker) has
`searchVolume = 0` and the placeholder display string `"-"`, irrespective
of the literal text in the cell. -/
theorem C4_blurred_row_zero_volume (rows : List Row) (r : KeywordRecord)
    (hr : r ∈ extractKeywords rows) (hb : r.isDataAvailable = false) :
    r.searchVolume = 0 ∧ r.searchVolumeFormatted = "-" := by
  unfold extractKeywords at hr
  split at hr
  · exact absurd hr (by simp)
  · rcases List.mem_filterMap.mp hr with ⟨row, _, hrow⟩
    obtain ⟨hvol, hfmt, havail⟩ := extractRow_some_shape row r hrow
    rw [hb] at havail
    have hblur : rowVolumeBlurred row = true := by
      cases hx : rowVolumeBlurred row
      · rw [hx] at havail; exact absurd havail.symm (by simp)
      · rfl
    have htext : rowVolumeText row = "-" := by
      unfold rowVolumeText
      rw [hblur]
      simp
    rw [htext] at hvol hfmt
    refine ⟨?_, hfmt⟩
    rw [hvol]
    unfold volumeOfText
    simp

/-- Witness for C4: a concrete blurred row whose volume cell shows the
literal text `"123"` still yields volume 0 and the placeholder. -/
theorem C4_blurred_row_zero_volume_witness :
    (⟨"kw", 0, "-", "-", false⟩ : KeywordRecord) ∈ extractKeywords
        [⟨false, [⟨"", [], "", false⟩, ⟨"kw", [], "", false⟩,
          ⟨"123", ["blur"], "123", false⟩]⟩] ∧
      (0 : Int) = 0 ∧ ("-" : String) = "-" := by
  refine ⟨by decide, ?_⟩
  exact C4_blurred_row_zero_volume
    [⟨false, [⟨"", [], "", false⟩, ⟨"kw", [], "", false⟩,
      ⟨"123", ["blur"], "123", false⟩]⟩]
    ⟨"kw", 0, "-", "-", false⟩ (by decide) rfl

/-! ## Login state machine (`loginIfNeeded`) -/

/-- Page / browser behaviour observed during one account attempt.  Each
field mirrors one read the source performs on the live page. -/
structure AttemptEnv where
  /-- Model of `a[href="/user/login"]` visible in the header. -/
  loginLinkVisible : Bool
  /-- Model of `.user-account, .avatar, text=My Account` visible. -/
  userMenuVisible : Bool
  /-- filling or submitting the credential form throws. -/
  fillFails : Bool
  /-- Model of `waitForURL(url not containing /user/login)` succeeded in time. -/
  redirected : Bool
  /-- Model of `page.url()` after the submission settles. -/
  postLoginUrl : String
  /-- Model of `page.textContent('body')` after the submission settles. -/
  postLoginBody : String
  /-- inline error text scraped from the login page (empty if none). -/
  inlineErrorMsg : String
  /-- Model of `context.cookies()` right after a fresh successful login. -/
  cookiesAtLogin : List String
  /-- Model of `navigator.userAgent` right after a fresh successful login. -/
  uaAtLogin : String
  /-- Model of `context.cookies()` after a non-degraded extraction. -/
  cookiesAtSuccess : List String
  /-- Model of `navigator.userAgent` after a non-degraded extraction. -/
  uaAtSuccess : String
  /-- rows of the results table. -/
  rows : List Row
  /-- Model of `Total Search Volume` figure matched in the page text, if any. -/
  statsTotalVolume : Option Nat
  /-- Model of `Average Trend` figure matched in the page text, if any. -/
  statsAvgTrend : Option String
  /-- a playwright step before the login section throws (launch or first
  navigation), with the error message. -/
  failBeforeLogin : Option String
  /-- a playwright step after the login section throws (navigation,
  search, tab switch, extraction plumbing), with the error message. -/
  failAfterLogin : Option String
deriving Repr, DecidableEq

/-- Terminal failures of the login flow. -/
inductive LoginError where
  /-- the credential form could not be filled / submitted. -/
  | fillFailed
  /-- OTP / verification / CAPTCHA / rate-limit signal detected. -/
  | challenged (email : String)
  /-- still on the login page: credentials rejected, with the scraped
  inline error detail (empty if none). -/
  | rejected (email : String) (detail : String)
deriving Repr, DecidableEq

deriving instance DecidableEq for Except

/-- The OTP / verification / CAPTCHA / rate-limit detection on the
post-submission URL and lower-cased body text. -/
def challengeSignal (url body : String) : Bool :=
  let bodyLower := strToLower body
  strIncludes url "/otp" || strIncludes url "/verify" ||
  strIncludes url "/captcha" || strIncludes url "/two-factor" ||
  strIncludes bodyLower "one-time password" ||
  strIncludes bodyLower "otp" ||
  strIncludes bodyLower "verification code" ||
  strIncludes bodyLower "verify your" ||
  strIncludes bodyLower "too many" ||
  strIncludes bodyLower "rate limit" ||
  strIncludes bodyLower "captcha"

/-- Result of the login flow: the outcome, the store after any cookie
save, and whether the credential-submission flow was entered at all. -/
structure LoginStep where
  outcome : Except LoginError Unit
  st : St
  attemptedCredentialFill : Bool
deriving Repr

/-- Model of `loginIfNeeded(context, page, account)`.  Early-returns when the login
link is absent and an authenticated-only element is visible; otherwise
fills and submits credentials and classifies the outcome: challenge
signals first, then still-on-login-page (rejected), else authenticated
with cookies + user agent persisted. -/
def loginIfNeeded (env : AttemptEnv) (acct : Account) (st : St) :
    LoginStep :=
  if !env.loginLinkVisible && env.userMenuVisible then
    ⟨Except.ok (), st, false⟩
  else if env.fillFails then
    ⟨Except.error LoginError.fillFailed, st, true⟩
  else if challengeSignal env.postLoginUrl env.postLoginBody then
    ⟨Except.error (LoginError.challenged acct.email), st, true⟩
  else if !env.redirected || strIncludes env.postLoginUrl "/user/login" then
    ⟨Except.error (LoginError.rejected acct.email
        (if env.inlineErrorMsg ≠ "" then strTrim env.inlineErrorMsg
         else "")), st, true⟩
  else
    ⟨Except.ok (),
      saveCookies acct.cookieFile env.cookiesAtLogin env.uaAtLogin st,
      true⟩

/-- C5: with no login affordance and a visible authenticated-only element,
`loginIfNeeded` returns success without entering the credential-submission
flow and without touching the store; and absence of the login link alone
is not sufficient — when the authenticated-only element is also missing,
the credential flow is entered. -/
theorem C5_session_reuse_no_credentials (env : AttemptEnv) (acct : Account)
    (st : St) (hlink : env.loginLinkVisible = false) :
    (env.userMenuVisible = true →
      loginIfNeeded env acct st = ⟨Except.ok (), st, false⟩) ∧
    (env.userMenuVisible = false →
      (loginIfNeeded env acct st).attemptedCredentialFill = true) := by
  constructor
  · intro hmenu
    unfold loginIfNeeded
    rw [hlink, hmenu]
    simp
  · intro hmenu
    unfold loginIfNeeded
    rw [hlink, hmenu]
    simp only [Bool.not_false, Bool.and_false, Bool.false_eq_true,
      ite_false]
    split
    · rfl
    · split
      · rfl
      · split
        · rfl
        · rfl

/-- Witness for C5 at a concrete environment with a valid session. -/
theorem C5_session_reuse_no_credentials_witness :
    (true = true →
      loginIfNeeded ⟨false, true, false, true, "https://keywordtool.io/",
          "", "", [], "", [], "", [], none, none, none, none⟩
        ⟨"a@b.c", "pw", "f1"⟩ ⟨[], [], []⟩ =
        ⟨Except.ok (), ⟨[], [], []⟩, false⟩) ∧
    (true = false →
      (loginIfNeeded ⟨false, true, false, true, "https://keywordtool.io/",
          "", "", [], "", [], "", [], none, none, none, none⟩
        ⟨"a@b.c", "pw", "f1"⟩ ⟨[], [], []⟩).attemptedCredentialFill
        = true) :=
  C5_session_reuse_no_credentials
    ⟨false, true, false, true, "https://keywordtool.io/",
      "", "", [], "", [], "", [], none, none, none, none⟩
    ⟨"a@b.c", "pw", "f1"⟩ ⟨[], [], []⟩ rfl

/-- C6: after credential submission the outcome is classified in priority
order — any challenge/verification/rate-limit signal yields `challenged`;
otherwise no navigation or a URL still on the login page yields `rejected`
with the scraped inline detail; otherwise success, with the resulting
cookies and browser identity persisted via the Session Store. -/
theorem C6_login_outcome_priority (env : AttemptEnv) (acct : Account)
    (st : St)
    (hsubmit : env.loginLinkVisible = true ∨ env.userMenuVisible = false)
    (hfill : env.fillFails = false) :
    (challengeSignal env.postLoginUrl env.postLoginBody = true →
      loginIfNeeded env acct st =
        ⟨Except.error (LoginError.challenged acct.email), st, true⟩) ∧
    (challengeSignal env.postLoginUrl env.postLoginBody = false →
      (env.redirected = false ∨
        strIncludes env.postLoginUrl "/user/login" = true) →
      loginIfNeeded env acct st =
        ⟨Except.error (LoginError.rejected acct.email
            (if env.inlineErrorMsg ≠ "" then strTrim env.inlineErrorMsg
             else "")), st, true⟩) ∧
    (challengeSignal env.postLoginUrl env.postLoginBody = false →
      env.redirected = true →
      strIncludes env.postLoginUrl "/user/login" = false →
      loginIfNeeded env acct st =
        ⟨Except.ok (),
          saveCookies acct.cookieFile env.cookiesAtLogin env.uaAtLogin st,
          true⟩) := by
  have hgate : (!env.loginLinkVisible && env.userMenuVisible) = false := by
    rcases hsubmit with h | h <;> rw [h] <;> simp
  refine ⟨?_, ?_, ?_⟩
  · intro hc
    unfold loginIfNeeded
    rw [hgate, hfill, hc]
    simp
  · intro hc hred
    unfold loginIfNeeded
    rw [hgate, hfill, hc]
    have hcond : (!env.redirected ||
        strIncludes env.postLoginUrl "/user/login") = true := by
      rcases hred with h | h <;> rw [h] <;> simp
    rw [hcond]
    simp
  · intro hc hred hurl
    unfold loginIfNeeded
    rw [hgate, hfill, hc, hred, hurl]
    simp

/-- Witness for C6 at a concrete challenged environment. -/
theorem C6_login_outcome_priority_witness :
    (challengeSignal "https://keywordtool.io/user/login/otp" "body" = true →
      loginIfNeeded ⟨true, false, false, false,
          "https://keywordtool.io/user/login/otp", "body", "", [], "", [],
          "", [], none, none, none, none⟩
        ⟨"a@b.c", "pw", "f1"⟩ ⟨[], [], []⟩ =
        ⟨Except.error (LoginError.challenged "a@b.c"), ⟨[], [], []⟩,
          true⟩) ∧
    (challengeSignal "https://keywordtool.io/user/login/otp" "body" = false →
      (false = false ∨
        strIncludes "https://keywordtool.io/user/login/otp" "/user/login"
          = true) →
      loginIfNeeded ⟨true, false, false, false,
          "https://keywordtool.io/user/login/otp", "body", "", [], "", [],
          "", [], none, none, none, none⟩
        ⟨"a@b.c", "pw", "f1"⟩ ⟨[], [], []⟩ =
        ⟨Except.error (LoginError.rejected "a@b.c"
            (if ("" : String) ≠ "" then strTrim "" else "")),
          ⟨[], [], []⟩, true⟩) ∧
    (challengeSignal "https://keywordtool.io/user/login/otp" "body" = false →
      false = true →
      strIncludes "https://keywordtool.io/user/login/otp" "/user/login"
        = false →
      loginIfNeeded ⟨true, false, false, false,
          "https://keywordtool.io/user/login/otp", "body", "", [], "", [],
          "", [], none, none, none, none⟩
        ⟨"a@b.c", "pw", "f1"⟩ ⟨[], [], []⟩ =
        ⟨Except.ok (),
          saveCookies "f1" [] "" ⟨[], [], []⟩, true⟩) :=
  C6_login_outcome_priority
    ⟨true, false, false, false, "https://keywordtool.io/user/login/otp",
      "body", "", [], "", [], "", [], none, none, none, none⟩
    ⟨"a@b.c", "pw", "f1"⟩ ⟨[], [], []⟩ (Or.inl rfl) rfl

/-! ## One account attempt (`tryWithAccount`) -/

/-- Options of `scrapeKeywords` / `tryWithAccount`, with the source's
defaults.  `maxVolume = none` models the default `Infinity`. -/
structure ScrapeOptions where
  platform : String := "google"
  tab : String := "suggestions"
  minVolume : Int := 0
  maxVolume : Option Int := none
deriving Repr, DecidableEq

/-- The result object returned by `tryWithAccount`.  `filterMaxVolume =
none` renders as the string `'unlimited'` in the source. -/
structure ScrapeResult where
  account : String
  totalKeywordsFound : Nat
  totalSearchVolume : Nat
  averageTrend : String
  filterMinVolume : Int
  filterMaxVolume : Option Int
  filteredCount : Nat
  keywords : List KeywordRecord
deriving Repr, DecidableEq

/-- The volume-filter predicate:
`kw.searchVolume >= minVolume && kw.searchVolume <= maxVolume`. -/
def inVolumeRange (minV : Int) (maxV : Option Int) (kw : KeywordRecord) :
    Bool :=
  decide (minV ≤ kw.searchVolume) &&
    (match maxV with
     | none => true
     | some m => decide (kw.searchVolume ≤ m))

/-- Model of `tryWithAccount(account, keyword, options)`: load the account's
cookies into the fresh context, navigate, run `loginIfNeeded` with all its
failures caught (guest fallback), search, extract stats and rows, save the
session only when some row carries real data, then apply the volume
filter.  Hard playwright failures before/after the login section
propagate as errors; the browser teardown in `finally` has no modelled
effect. -/
def tryWithAccount (env : AttemptEnv) (acct : Account) (keyword : String)
    (opts : ScrapeOptions) (st : St) : Except String ScrapeResult × St :=
  match env.failBeforeLogin with
  | some msg => (Except.error msg, st)
  | none =>
    let _savedData := loadCookies acct.cookieFile st
    let login := loginIfNeeded env acct st
    let st1 := login.st
    match env.failAfterLogin with
    | some msg => (Except.error msg, st1)
    | none =>
      let totalSearchVolume := env.statsTotalVolume.getD 0
      let averageTrend := env.statsAvgTrend.getD "-"
      let allKeywords := extractKeywords env.rows
      let st2 :=
        if allKeywords.length > 0 then
          if allKeywords.any (fun kw => kw.isDataAvailable) then
            saveCookies acct.cookieFile env.cookiesAtSuccess
              env.uaAtSuccess st1
          else st1
        else st1
      let filtered :=
        allKeywords.filter (inVolumeRange opts.minVolume opts.maxVolume)
      (Except.ok
        { account := acct.email
          totalKeywordsFound := allKeywords.length
          totalSearchVolume := totalSearchVolume
          averageTrend := averageTrend
          filterMinVolume := opts.minVolume
          filterMaxVolume := opts.maxVolume
          filteredCount := filtered.length
          keywords := filtered }, st2)

/-- Whether the attempt raises (the outcome of `tryWithAccount` is an
error): exactly when one of the hard playwright failures fires. -/
def attemptFails (env : AttemptEnv) : Bool :=
  env.failBeforeLogin.isSome || env.failAfterLogin.isSome

/-- The message a failing attempt propagates. -/
def attemptErrMsg (env : AttemptEnv) : String :=
  match env.failBeforeLogin with
  | some msg => msg
  | none => env.failAfterLogin.getD ""

/-- The outcome component of `tryWithAccount` does not depend on the
store. -/
theorem tryWithAccount_fst_const (env : AttemptEnv) (acct : Account)
    (keyword : String) (opts : ScrapeOptions) (st st' : St) :
    (tryWithAccount env acct keyword opts st).1 =
      (tryWithAccount env acct keyword opts st').1 := by
  unfold tryWithAccount
  cases env.failBeforeLogin <;> cases henv : env.failAfterLogin <;> simp

theorem tryWithAccount_fails (env : AttemptEnv) (acct : Account)
    (keyword : String) (opts : ScrapeOptions) (st : St)
    (h : attemptFails env = true) :
    (tryWithAccount env acct keyword opts st).1 =
      Except.error (attemptErrMsg env) := by
  unfold tryWithAccount attemptErrMsg
  cases hb : env.failBeforeLogin <;> cases ha : env.failAfterLogin <;>
    simp_all [attemptFails]

/-- The result object a non-failing attempt produces (a pure function of
the page behaviour, the account and the options). -/
def attemptResult (env : AttemptEnv) (acct : Account)
    (opts : ScrapeOptions) : ScrapeResult :=
  { account := acct.email
    totalKeywordsFound := (extractKeywords env.rows).length
    totalSearchVolume := env.statsTotalVolume.getD 0
    averageTrend := env.statsAvgTrend.getD "-"
    filterMinVolume := opts.minVolume
    filterMaxVolume := opts.maxVolume
    filteredCount := ((extractKeywords env.rows).filter
      (inVolumeRange opts.minVolume opts.maxVolume)).length
    keywords := (extractKeywords env.rows).filter
      (inVolumeRange opts.minVolume opts.maxVolume) }

theorem tryWithAccount_ok (env : AttemptEnv) (acct : Account)
    (keyword : String) (opts : ScrapeOptions) (st : St)
    (h : attemptFails env = false) :
    (tryWithAccount env acct keyword opts st).1 =
      Except.ok (attemptResult env acct opts) := by
  unfold tryWithAccount attemptResult
  cases hb : env.failBeforeLogin <;> cases ha : env.failAfterLogin <;>
    simp_all [attemptFails]

/-- C3: every result returned by `tryWithAccount` has `filteredCount`
equal to the number of records in `keywords`, every record in `keywords`
within the `[minVolume, maxVolume]` bounds, and `keywords` exactly equal
to the extracted records within the bounds — no dual representation. -/
theorem C3_filter_consistency (env : AttemptEnv) (acct : Account)
    (keyword : String) (opts : ScrapeOptions) (st st' : St)
    (res : ScrapeResult)
    (h : tryWithAccount env acct keyword opts st = (Except.ok res, st')) :
    res.filteredCount = res.keywords.length ∧
    res.keywords = (extractKeywords env.rows).filter
      (inVolumeRange opts.minVolume opts.maxVolume) ∧
    ∀ kw ∈ res.keywords,
      opts.minVolume ≤ kw.searchVolume ∧
      (∀ m, opts.maxVolume = some m → kw.searchVolume ≤ m) := by
  have hfail : attemptFails env = false := by
    cases hb : env.failBeforeLogin with
    | some msg =>
        exfalso
        unfold tryWithAccount at h
        rw [hb] at h
        exact absurd (congrArg Prod.fst h) (by simp)
    | none =>
        cases ha : env.failAfterLogin with
        | some msg =>
            exfalso
            unfold tryWithAccount at h
            rw [hb] at h
            simp only [ha] at h
            exact absurd (congrArg Prod.fst h) (by simp)
        | none => simp [attemptFails, hb, ha]
  have hok := tryWithAccount_ok env acct keyword opts st hfail
  rw [h] at hok
  have hres := Except.ok.inj hok
  rw [hres]
  refine ⟨rfl, rfl, ?_⟩
  intro kw hkw
  have hmem := List.of_mem_filter hkw
  unfold inVolumeRange at hmem
  rcases (Bool.and_eq_true _ _).mp hmem with ⟨h1, h2⟩
  refine ⟨of_decide_eq_true h1, ?_⟩
  intro m hm
  rw [hm] at h2
  exact of_decide_eq_true h2

/-- Witness for C3 at a concrete attempt with two rows, one inside and
one outside the bounds. -/
theorem C3_filter_consistency_witness :
    (tryWithAccount
        ⟨true, false, false, true, "https://keywordtool.io/google/search",
          "", "", ["c"], "UA", ["c"], "UA",
          [⟨false, [⟨"", [], "", false⟩, ⟨"kw1", [], "", false⟩,
            ⟨"50", [], "50", false⟩]⟩,
           ⟨false, [⟨"", [], "", false⟩, ⟨"kw2", [], "", false⟩,
            ⟨"5", [], "5", false⟩]⟩],
          none, none, none, none⟩
        ⟨"a@b.c", "pw", "f1"⟩ "kw" ⟨"google", "suggestions", 10, some 100⟩
        ⟨[], [], []⟩).1.isOk = true ∧
    ((⟨true, false, false, true, "https://keywordtool.io/google/search",
          "", "", ["c"], "UA", ["c"], "UA",
          [⟨false, [⟨"", [], "", false⟩, ⟨"kw1", [], "", false⟩,
            ⟨"50", [], "50", false⟩]⟩,
           ⟨false, [⟨"", [], "", false⟩, ⟨"kw2", [], "", false⟩,
            ⟨"5", [], "5", false⟩]⟩],
          none, none, none, none⟩ : AttemptEnv) : AttemptEnv).rows ≠ [] ∧
    ∃ res st',
      tryWithAccount
        ⟨true, false, false, true, "https://keywordtool.io/google/search",
          "", "", ["c"], "UA", ["c"], "UA",
          [⟨false, [⟨"", [], "", false⟩, ⟨"kw1", [], "", false⟩,
            ⟨"50", [], "50", false⟩]⟩,
           ⟨false, [⟨"", [], "", false⟩, ⟨"kw2", [], "", false⟩,
            ⟨"5", [], "5", false⟩]⟩],
          none, none, none, none⟩
        ⟨"a@b.c", "pw", "f1"⟩ "kw" ⟨"google", "suggestions", 10, some 100⟩
        ⟨[], [], []⟩ = (Except.ok res, st') ∧
      res.filteredCount = res.keywords.length ∧
      res.keywords.length = 1 := by
  refine ⟨by decide, by decide, ?_⟩
  obtain ⟨res, st', hres⟩ :
      ∃ res st', tryWithAccount
        ⟨true, false, false, true, "https://keywordtool.io/google/search",
          "", "", ["c"], "UA", ["c"], "UA",
          [⟨false, [⟨"", [], "", false⟩, ⟨"kw1", [], "", false⟩,
            ⟨"50", [], "50", false⟩]⟩,
           ⟨false, [⟨"", [], "", false⟩, ⟨"kw2", [], "", false⟩,
            ⟨"5", [], "5", false⟩]⟩],
          none, none, none, none⟩
        ⟨"a@b.c", "pw", "f1"⟩ "kw" ⟨"google", "suggestions", 10, some 100⟩
        ⟨[], [], []⟩ = (Except.ok res, st') := by
    exact ⟨_, _, rfl⟩
  refine ⟨res, st', hres, ?_, ?_⟩
  · exact (C3_filter_consistency _ _ _ _ _ _ res hres).1
  · have h2 := (C3_filter_consistency _ _ _ _ _ _ res hres).2.1
    rw [h2]
    decide

/-- Fixture: an attempt whose fresh credential submission succeeds (the
login link was visible, submission navigated away from the login page)
while every extracted row is blurred. -/
def envFreshLoginBlurred : AttemptEnv where
  loginLinkVisible := true
  userMenuVisible := false
  fillFails := false
  redirected := true
  postLoginUrl := "https://keywordtool.io/google"
  postLoginBody := ""
  inlineErrorMsg := ""
  cookiesAtLogin := ["sess=1"]
  uaAtLogin := "UA1"
  cookiesAtSuccess := ["sess=2"]
  uaAtSuccess := "UA2"
  rows := [⟨false, [⟨"", [], "", false⟩, ⟨"kw", [], "", false⟩,
    ⟨"999", ["blur"], "999", false⟩]⟩]
  statsTotalVolume := none
  statsAvgTrend := none
  failBeforeLogin := none
  failAfterLogin := none

/-- C2 counterexample: in an attempt where the fresh credential submission
succeeds, `saveCookies` is invoked (by `loginIfNeeded`) even though every
extracted row has `isDataAvailable = false` and the attempt is reported a
success — so "save is never invoked during that attempt" fails. -/
theorem C2_counterexample :
    extractKeywords envFreshLoginBlurred.rows ≠ [] ∧
    (extractKeywords envFreshLoginBlurred.rows).all
      (fun r => !r.isDataAvailable) = true ∧
    (tryWithAccount envFreshLoginBlurred ⟨"a@b.c", "pw", "f1"⟩ "kw"
      ⟨"google", "suggestions", 0, none⟩ ⟨[], [], []⟩).1.isOk = true ∧
    ((tryWithAccount envFreshLoginBlurred ⟨"a@b.c", "pw", "f1"⟩ "kw"
      ⟨"google", "suggestions", 0, none⟩ ⟨[], [], []⟩).2).saveLog =
      ["f1"] := by
  refine ⟨by decide, by decide, by decide, by decide⟩

/-- C2 amended: the post-extraction save of `tryWithAccount` is suppressed
whenever every extracted row has `isDataAvailable = false`: after the
login section the store is never written again (so the only save an
all-blurred successful attempt can perform is the one inside a fresh
successful credential submission), and the attempt is still reported as a
success. -/
theorem C2_degraded_save_suppressed (env : AttemptEnv) (acct : Account)
    (keyword : String) (opts : ScrapeOptions) (st : St)
    (hfail : attemptFails env = false)
    (hdeg : (extractKeywords env.rows).all (fun r => !r.isDataAvailable)
      = true) :
    (tryWithAccount env acct keyword opts st).2 =
      (loginIfNeeded env acct st).st ∧
    (tryWithAccount env acct keyword opts st).1.isOk = true := by
  have hany : (extractKeywords env.rows).any (fun kw => kw.isDataAvailable)
      = false := by
    cases hany : (extractKeywords env.rows).any (fun kw => kw.isDataAvailable)
    · rfl
    · exfalso
      obtain ⟨x, hx, hpx⟩ := List.any_eq_true.mp hany
      have hall := List.all_eq_true.mp hdeg x hx
      simp only [hpx] at hall
      exact absurd hall (by simp)
  unfold tryWithAccount
  cases hb : env.failBeforeLogin with
  | some msg => simp [attemptFails, hb] at hfail
  | none =>
    cases ha : env.failAfterLogin with
    | some msg => simp [attemptFails, hb, ha] at hfail
    | none =>
      simp [hany, Except.isOk, Except.toBool]

/-- Witness for the amended C2 at the all-blurred fixture with an
already-authenticated session (no login-phase save either). -/
theorem C2_degraded_save_suppressed_witness :
    (tryWithAccount
        ⟨false, true, false, true, "https://keywordtool.io/google", "",
          "", [], "", ["sess=2"], "UA2",
          [⟨false, [⟨"", [], "", false⟩, ⟨"kw", [], "", false⟩,
            ⟨"999", ["blur"], "999", false⟩]⟩],
          none, none, none, none⟩
        ⟨"a@b.c", "pw", "f1"⟩ "kw" ⟨"google", "suggestions", 0, none⟩
        ⟨[], [], []⟩).2 =
      (loginIfNeeded
        ⟨false, true, false, true, "https://keywordtool.io/google", "",
          "", [], "", ["sess=2"], "UA2",
          [⟨false, [⟨"", [], "", false⟩, ⟨"kw", [], "", false⟩,
            ⟨"999", ["blur"], "999", false⟩]⟩],
          none, none, none, none⟩
        ⟨"a@b.c", "pw", "f1"⟩ ⟨[], [], []⟩).st ∧
    (tryWithAccount
        ⟨false, true, false, true, "https://keywordtool.io/google", "",
          "", [], "", ["sess=2"], "UA2",
          [⟨false, [⟨"", [], "", false⟩, ⟨"kw", [], "", false⟩,
            ⟨"999", ["blur"], "999", false⟩]⟩],
          none, none, none, none⟩
        ⟨"a@b.c", "pw", "f1"⟩ "kw" ⟨"google", "suggestions", 0, none⟩
        ⟨[], [], []⟩).1.isOk = true :=
  C2_degraded_save_suppressed
    ⟨false, true, false, true, "https://keywordtool.io/google", "",
      "", [], "", ["sess=2"], "UA2",
      [⟨false, [⟨"", [], "", false⟩, ⟨"kw", [], "", false⟩,
        ⟨"999", ["blur"], "999", false⟩]⟩],
      none, none, none, none⟩
    ⟨"a@b.c", "pw", "f1"⟩ "kw" ⟨"google", "suggestions", 0, none⟩
    ⟨[], [], []⟩ (by decide) (by decide)

/-! ## Account orchestrator (`scrapeKeywords`) -/

/-- The platform URL map. -/
def PLATFORM_URLS : List (String × String) :=
  [("google", "https://keywordtool.io/google"),
   ("youtube", "https://keywordtool.io/youtube"),
   ("instagram", "https://keywordtool.io/instagram"),
   ("tiktok", "https://keywordtool.io/tiktok"),
   ("google-trends", "https://keywordtool.io/google-trends")]

/-- Model of `PLATFORM_URLS[platform]`. -/
def platformUrl (platform : String) : Option String :=
  (PLATFORM_URLS.find? (fun p => p.1 == platform)).map (fun p => p.2)

/-- Failures thrown by `scrapeKeywords` itself.  `allFailed` carries the
accumulated `{account, error}` entries whose rendering
`a: e | b: f | ...` is the thrown message. -/
inductive ScrapeError where
  | invalidPlatform (platform : String)
  | noAccounts
  | allFailed (errors : List (String × String))
deriving Repr, DecidableEq

/-- The cookie-priority ordering: the source sorts a clone of the account
list with a comparator that puts accounts whose cookie file exists first
and leaves ties alone; being a stable sort by a boolean key, this is the
partition below. -/
def sortAccounts (st : St) (accounts : List Account) : List Account :=
  accounts.filter (fun a => fileExists a.cookieFile st) ++
    accounts.filter (fun a => !fileExists a.cookieFile st)

/-- The per-account `for` loop of `scrapeKeywords`: try each account in
order, return the first success immediately; on a failed attempt delete
that account's cookies, record `{account, error}` and continue; when the
pool is exhausted throw the aggregate error. -/
def scrapeLoop (envs : Nat → AttemptEnv) (keyword : String)
    (opts : ScrapeOptions) :
    List Account → Nat → List (String × String) → St →
      Except ScrapeError ScrapeResult × St
  | [], _, errs, st => (Except.error (ScrapeError.allFailed errs), st)
  | a :: rest, i, errs, st =>
    match tryWithAccount (envs i) a keyword opts st with
    | (Except.ok r, st1) => (Except.ok r, st1)
    | (Except.error e, st1) =>
      scrapeLoop envs keyword opts rest (i + 1)
        (errs ++ [(a.email, e)]) (deleteCookies a.cookieFile st1)

/-- Model of `scrapeKeywords(keyword, options)`: validate the platform, clone the
configured account list, require it non-empty, order it by cookie
priority, then run the per-account loop.  `envs i` is the page behaviour
of the `i`-th attempt. -/
def scrapeKeywords (envs : Nat → AttemptEnv) (keyword : String)
    (opts : ScrapeOptions) (st : St) :
    Except ScrapeError ScrapeResult × St :=
  match platformUrl opts.platform with
  | none => (Except.error (ScrapeError.invalidPlatform opts.platform), st)
  | some _ =>
    let accounts := st.configAccounts
    if accounts.isEmpty then (Except.error ScrapeError.noAccounts, st)
    else scrapeLoop envs keyword opts (sortAccounts st accounts) 0 [] st

theorem scrapeLoop_first_success (envs : Nat → AttemptEnv)
    (keyword : String) (opts : ScrapeOptions) (a : Account)
    (post : List Account) :
    ∀ (pre : List Account) (i : Nat) (errs : List (String × String))
      (st : St),
    (∀ j, j < pre.length → attemptFails (envs (i + j)) = true) →
    attemptFails (envs (i + pre.length)) = false →
    ∃ st', scrapeLoop envs keyword opts (pre ++ a :: post) i errs st =
      (Except.ok (attemptResult (envs (i + pre.length)) a opts),
        st') := by
  intro pre
  induction pre with
  | nil =>
    intro i errs st _ hok
    simp only [List.length_nil, Nat.add_zero] at hok ⊢
    have h1 := tryWithAccount_ok (envs i) a keyword opts st hok
    cases hpair : tryWithAccount (envs i) a keyword opts st with
    | mk o st1 =>
      rw [hpair] at h1
      simp only at h1
      cases o with
      | ok r =>
        refine ⟨st1, ?_⟩
        rw [List.nil_append, scrapeLoop, hpair, Except.ok.inj h1]
      | error e =>
        exact absurd h1 (by simp)
  | cons b pre ih =>
    intro i errs st hfails hok
    have hb : attemptFails (envs i) = true := by
      have := hfails 0 (by simp)
      simpa using this
    cases hpair : tryWithAccount (envs i) b keyword opts st with
    | mk o st1 =>
      cases o with
      | ok r =>
        exfalso
        have h1 := tryWithAccount_fails (envs i) b keyword opts st hb
        rw [hpair] at h1
        exact absurd h1 (by simp)
      | error e =>
        have hfails' : ∀ j, j < pre.length →
            attemptFails (envs (i + 1 + j)) = true := by
          intro j hj
          have := hfails (j + 1) (by simpa using Nat.succ_lt_succ hj)
          rw [show i + 1 + j = i + (j + 1) by omega]
          exact this
        have hok' : attemptFails (envs (i + 1 + pre.length)) = false := by
          rw [show i + 1 + pre.length = i + (b :: pre).length by
            simp only [List.length_cons]; omega]
          exact hok
        obtain ⟨st', hst'⟩ := ih (i + 1) (errs ++ [(b.email, e)])
          (deleteCookies b.cookieFile st1) hfails' hok'
        refine ⟨st', ?_⟩
        rw [show i + (b :: pre).length = i + 1 + pre.length by
          simp only [List.length_cons]; omega]
        rw [List.cons_append, scrapeLoop, hpair]
        exact hst'

/-- C7: when the attempts for the accounts before `a` in the ordered pool
all fail and the attempt for `a` succeeds, `scrapeKeywords` returns
exactly `a`'s attempt result — a success — trying no later account and
never surfacing the accumulated per-account errors. -/
theorem C7_first_success_returned (envs : Nat → AttemptEnv)
    (keyword : String) (opts : ScrapeOptions) (st : St)
    (pre : List Account) (a : Account) (post : List Account)
    (hplat : (platformUrl opts.platform).isSome = true)
    (hsort : sortAccounts st st.configAccounts = pre ++ a :: post)
    (hfails : ∀ j, j < pre.length → attemptFails (envs j) = true)
    (hok : attemptFails (envs pre.length) = false) :
    (∃ st', scrapeKeywords envs keyword opts st =
      (Except.ok (attemptResult (envs pre.length) a opts), st')) ∧
    (tryWithAccount (envs pre.length) a keyword opts st).1 =
      Except.ok (attemptResult (envs pre.length) a opts) := by
  have hne : st.configAccounts.isEmpty = false := by
    cases hc : st.configAccounts with
    | nil =>
      exfalso
      rw [hc] at hsort
      simp [sortAccounts] at hsort
    | cons x xs => rfl
  constructor
  · obtain ⟨st', hst'⟩ := scrapeLoop_first_success envs keyword opts a post
      pre 0 [] st (by intro j hj; rw [Nat.zero_add]; exact hfails j hj)
      (by rw [Nat.zero_add]; exact hok)
    refine ⟨st', ?_⟩
    unfold scrapeKeywords
    cases hp : platformUrl opts.platform with
    | none => rw [hp] at hplat; exact absurd hplat (by simp)
    | some u =>
      simp only [hne, Bool.false_eq_true, ite_false]
      rw [← hsort] at hst'
      rw [hst']
      rw [Nat.zero_add]
  · exact tryWithAccount_ok (envs pre.length) a keyword opts st hok

/-- Fixture for C7/C8 witnesses: attempt 0 fails hard, attempt 1
succeeds on real data. -/
def envsFailThenOk (i : Nat) : AttemptEnv :=
  if i = 0 then
    ⟨true, false, false, false, "https://keywordtool.io/user/login",
      "", "", [], "", [], "", [], none, none, some "boom", none⟩
  else
    ⟨false, true, false, true, "https://keywordtool.io/google", "",
      "", [], "", ["s"], "UA",
      [⟨false, [⟨"", [], "", false⟩, ⟨"kw", [], "", false⟩,
        ⟨"70", [], "70", false⟩]⟩],
      none, none, none, none⟩

/-- Witness for C7: two accounts, the first attempt fails hard, the
second succeeds; the orchestrator returns the second attempt's result. -/
theorem C7_first_success_returned_witness :
    (∃ st', scrapeKeywords envsFailThenOk
        "kw" ⟨"google", "suggestions", 0, none⟩
        ⟨[], [], [⟨"a1@x", "p1", "f1"⟩, ⟨"a2@x", "p2", "f2"⟩]⟩ =
      (Except.ok (attemptResult (envsFailThenOk 1) ⟨"a2@x", "p2", "f2"⟩
        ⟨"google", "suggestions", 0, none⟩), st')) ∧
    (tryWithAccount (envsFailThenOk 1) ⟨"a2@x", "p2", "f2"⟩ "kw"
        ⟨"google", "suggestions", 0, none⟩
        ⟨[], [], [⟨"a1@x", "p1", "f1"⟩, ⟨"a2@x", "p2", "f2"⟩]⟩).1 =
      Except.ok (attemptResult (envsFailThenOk 1) ⟨"a2@x", "p2", "f2"⟩
        ⟨"google", "suggestions", 0, none⟩) :=
  C7_first_success_returned envsFailThenOk
    "kw" ⟨"google", "suggestions", 0, none⟩
    ⟨[], [], [⟨"a1@x", "p1", "f1"⟩, ⟨"a2@x", "p2", "f2"⟩]⟩
    [⟨"a1@x", "p1", "f1"⟩] ⟨"a2@x", "p2", "f2"⟩ []
    (by decide) (by decide)
    (by intro j hj
        simp only [List.length_cons, List.length_nil] at hj
        have hj0 : j = 0 := by omega
        subst hj0
        decide)
    (by decide)

/-- The `{account, error}` entries accumulated when the attempts starting
at index `i` for the given accounts all fail. -/
def failEntries (envs : Nat → AttemptEnv) : Nat → List Account →
    List (String × String)
  | _, [] => []
  | i, a :: rest => (a.email, attemptErrMsg (envs i)) ::
      failEntries envs (i + 1) rest

theorem failEntries_length (envs : Nat → AttemptEnv) :
    ∀ (l : List Account) (i : Nat), (failEntries envs i l).length = l.length
  | [], _ => rfl
  | _ :: rest, i => by
    simp only [failEntries, List.length_cons]
    rw [failEntries_length envs rest (i + 1)]

theorem failEntries_get? (envs : Nat → AttemptEnv) :
    ∀ (l : List Account) (i j : Nat),
    (failEntries envs i l).get? j =
      (l.get? j).map (fun a => (a.email, attemptErrMsg (envs (i + j))))
  | [], _, _ => by simp [failEntries]
  | a :: rest, i, 0 => by simp [failEntries]
  | a :: rest, i, j + 1 => by
    simp only [failEntries, List.get?_cons_succ]
    rw [failEntries_get? envs rest (i + 1) j,
      show i + 1 + j = i + (j + 1) by omega]

theorem scrapeLoop_all_fail (envs : Nat → AttemptEnv) (keyword : String)
    (opts : ScrapeOptions) :
    ∀ (accounts : List Account) (i : Nat)
      (errs : List (String × String)) (st : St),
    (∀ j, j < accounts.length → attemptFails (envs (i + j)) = true) →
    ∃ st', scrapeLoop envs keyword opts accounts i errs st =
      (Except.error (ScrapeError.allFailed
        (errs ++ failEntries envs i accounts)), st') := by
  intro accounts
  induction accounts with
  | nil =>
    intro i errs st _
    exact ⟨st, by simp [scrapeLoop, failEntries]⟩
  | cons a rest ih =>
    intro i errs st hfails
    have ha : attemptFails (envs i) = true := by
      have := hfails 0 (by simp)
      simpa using this
    cases hpair : tryWithAccount (envs i) a keyword opts st with
    | mk o st1 =>
      cases o with
      | ok r =>
        exfalso
        have h1 := tryWithAccount_fails (envs i) a keyword opts st ha
        rw [hpair] at h1
        exact absurd h1 (by simp)
      | error e =>
        have hmsg : e = attemptErrMsg (envs i) := by
          have h1 := tryWithAccount_fails (envs i) a keyword opts st ha
          rw [hpair] at h1
          simpa using h1
        have hfails' : ∀ j, j < rest.length →
            attemptFails (envs (i + 1 + j)) = true := by
          intro j hj
          have := hfails (j + 1) (by simpa using Nat.succ_lt_succ hj)
          rw [show i + 1 + j = i + (j + 1) by omega]
          exact this
        obtain ⟨st', hst'⟩ := ih (i + 1) (errs ++ [(a.email, e)])
          (deleteCookies a.cookieFile st1) hfails'
        refine ⟨st', ?_⟩
        rw [scrapeLoop, hpair]
        show scrapeLoop envs keyword opts rest (i + 1)
          (errs ++ [(a.email, e)]) (deleteCookies a.cookieFile st1) = _
        rw [hst', hmsg]
        simp [failEntries, List.append_assoc]

/-- C8: when every attempt fails, `scrapeKeywords` throws a single
aggregate error whose entry list has exactly one entry per configured
account (the attempt order being a permutation of the configuration), the
`j`-th entry attributing the `j`-th attempted account's email and its own
failure reason. -/
theorem C8_exhaustion_aggregate (envs : Nat → AttemptEnv)
    (keyword : String) (opts : ScrapeOptions) (st : St)
    (hplat : (platformUrl opts.platform).isSome = true)
    (hne : st.configAccounts.isEmpty = false)
    (hfails : ∀ j, j < (sortAccounts st st.configAccounts).length →
      attemptFails (envs j) = true) :
    (∃ st', scrapeKeywords envs keyword opts st =
      (Except.error (ScrapeError.allFailed
        (failEntries envs 0 (sortAccounts st st.configAccounts))), st')) ∧
    (failEntries envs 0 (sortAccounts st st.configAccounts)).length =
      st.configAccounts.length ∧
    List.Perm (sortAccounts st st.configAccounts) st.configAccounts ∧
    ∀ j, (failEntries envs 0 (sortAccounts st st.configAccounts)).get? j =
      ((sortAccounts st st.configAccounts).get? j).map
        (fun a => (a.email, attemptErrMsg (envs j))) := by
  have hperm : List.Perm (sortAccounts st st.configAccounts)
      st.configAccounts :=
    List.filter_append_perm _ st.configAccounts
  refine ⟨?_, ?_, hperm, ?_⟩
  · obtain ⟨st', hst'⟩ := scrapeLoop_all_fail envs keyword opts
      (sortAccounts st st.configAccounts) 0 [] st
      (by intro j hj; rw [Nat.zero_add]; exact hfails j hj)
    refine ⟨st', ?_⟩
    unfold scrapeKeywords
    cases hp : platformUrl opts.platform with
    | none => rw [hp] at hplat; exact absurd hplat (by simp)
    | some u =>
      simp only [hne, Bool.false_eq_true, ite_false]
      rw [hst']
      simp
  · rw [failEntries_length envs (sortAccounts st st.configAccounts) 0]
    exact hperm.length_eq
  · intro j
    rw [failEntries_get? envs (sortAccounts st st.configAccounts) 0 j,
      Nat.zero_add]

/-- Witness for C8: two accounts, both attempts fail hard; the aggregate
error lists both accounts with their reasons, in order. -/
theorem C8_exhaustion_aggregate_witness :
    ((∃ st', scrapeKeywords
        (fun i => ⟨true, false, false, false,
          "https://keywordtool.io/user/login", "", "", [], "", [], "",
          [], none, none,
          some (if i = 0 then "boom0" else "boom1"), none⟩)
        "kw" ⟨"google", "suggestions", 0, none⟩
        ⟨[], [], [⟨"a1@x", "p1", "f1"⟩, ⟨"a2@x", "p2", "f2"⟩]⟩ =
      (Except.error (ScrapeError.allFailed
        (failEntries
          (fun i => ⟨true, false, false, false,
            "https://keywordtool.io/user/login", "", "", [], "", [], "",
            [], none, none,
            some (if i = 0 then "boom0" else "boom1"), none⟩)
          0 (sortAccounts
              ⟨[], [], [⟨"a1@x", "p1", "f1"⟩, ⟨"a2@x", "p2", "f2"⟩]⟩
              [⟨"a1@x", "p1", "f1"⟩, ⟨"a2@x", "p2", "f2"⟩]))), st')) ∧
      (failEntries
        (fun i => ⟨true, false, false, false,
          "https://keywordtool.io/user/login", "", "", [], "", [], "",
          [], none, none,
          some (if i = 0 then "boom0" else "boom1"), none⟩)
        0 (sortAccounts
            ⟨[], [], [⟨"a1@x", "p1", "f1"⟩, ⟨"a2@x", "p2", "f2"⟩]⟩
            [⟨"a1@x", "p1", "f1"⟩, ⟨"a2@x", "p2", "f2"⟩])).length = 2 ∧
      (failEntries
        (fun i => ⟨true, false, false, false,
          "https://keywordtool.io/user/login", "", "", [], "", [], "",
          [], none, none,
          some (if i = 0 then "boom0" else "boom1"), none⟩)
        0 (sortAccounts
            ⟨[], [], [⟨"a1@x", "p1", "f1"⟩, ⟨"a2@x", "p2", "f2"⟩]⟩
            [⟨"a1@x", "p1", "f1"⟩, ⟨"a2@x", "p2", "f2"⟩])) =
        [("a1@x", "boom0"), ("a2@x", "boom1")]) := by
  have h := C8_exhaustion_aggregate
    (fun i => ⟨true, false, false, false,
      "https://keywordtool.io/user/login", "", "", [], "", [], "",
      [], none, none,
      some (if i = 0 then "boom0" else "boom1"), none⟩)
    "kw" ⟨"google", "suggestions", 0, none⟩
    ⟨[], [], [⟨"a1@x", "p1", "f1"⟩, ⟨"a2@x", "p2", "f2"⟩]⟩
    (by decide) (by decide)
    (by intro j hj
        simp only [sortAccounts, List.length_append, List.length_filter_le,
          List.length_cons, List.length_nil] at hj
        have : j < 2 := by
          refine lt_of_lt_of_le hj ?_
          decide
        interval_cases j <;> decide)
  exact ⟨h.1, by decide, by decide⟩

/-- Fixture for C1: the credential submission is rejected (no navigation
away from the login page), but the attempt itself continues as guest and
completes, extracting one blurred row. -/
def envRejectedGuestOk : AttemptEnv where
  loginLinkVisible := true
  userMenuVisible := false
  fillFails := false
  redirected := false
  postLoginUrl := "https://keywordtool.io/user/login"
  postLoginBody := ""
  inlineErrorMsg := ""
  cookiesAtLogin := []
  uaAtLogin := ""
  cookiesAtSuccess := []
  uaAtSuccess := ""
  rows := [⟨false, [⟨"", [], "", false⟩, ⟨"kw", [], "", false⟩,
    ⟨"999", ["blur"], "999", false⟩]⟩]
  statsTotalVolume := none
  statsAvgTrend := none
  failBeforeLogin := none
  failAfterLogin := none

/-- C1 counterexample: the account's login is classified `rejected`, the
attempt continues as guest and completes successfully, and the stale
cookie file is still present, untouched, after the orchestrator returns —
the claimed unconditional deletion does not happen. -/
theorem C1_counterexample :
    (loginIfNeeded envRejectedGuestOk ⟨"a@b.c", "pw", "f1"⟩
        ⟨[("f1", FileContent.json (some ["stale"]) (some "UA0"))], [],
          [⟨"a@b.c", "pw", "f1"⟩]⟩).outcome =
      Except.error (LoginError.rejected "a@b.c" "") ∧
    (scrapeKeywords (fun _ => envRejectedGuestOk) "kw"
        ⟨"google", "suggestions", 0, none⟩
        ⟨[("f1", FileContent.json (some ["stale"]) (some "UA0"))], [],
          [⟨"a@b.c", "pw", "f1"⟩]⟩).1.isOk = true ∧
    lookupFile "f1"
      ((scrapeKeywords (fun _ => envRejectedGuestOk) "kw"
        ⟨"google", "suggestions", 0, none⟩
        ⟨[("f1", FileContent.json (some ["stale"]) (some "UA0"))], [],
          [⟨"a@b.c", "pw", "f1"⟩]⟩).2).files =
      some (FileContent.json (some ["stale"]) (some "UA0")) := by
  refine ⟨by decide, by decide, by decide⟩

/-- C1 amended: the cookie file is deleted before the orchestrator
proceeds to the next account whenever the account's attempt as a whole
fails (the thrown error is caught by the per-account loop), regardless of
the failure kind; but when a rejected or challenged login is swallowed by
the guest fallback and the attempt then completes successfully, no
deletion takes place (as the counterexample shows). -/
theorem C1_failed_attempt_deletes_session (envs : Nat → AttemptEnv)
    (keyword : String) (opts : ScrapeOptions) (a : Account)
    (rest : List Account) (i : Nat) (errs : List (String × String))
    (st : St) (hfail : attemptFails (envs i) = true) :
    ∃ st', scrapeLoop envs keyword opts (a :: rest) i errs st =
        scrapeLoop envs keyword opts rest (i + 1)
          (errs ++ [(a.email, attemptErrMsg (envs i))]) st' ∧
      lookupFile a.cookieFile st'.files = none := by
  cases hpair : tryWithAccount (envs i) a keyword opts st with
  | mk o st1 =>
    cases o with
    | ok r =>
      exfalso
      have h1 := tryWithAccount_fails (envs i) a keyword opts st hfail
      rw [hpair] at h1
      exact absurd h1 (by simp)
    | error e =>
      have hmsg : e = attemptErrMsg (envs i) := by
        have h1 := tryWithAccount_fails (envs i) a keyword opts st hfail
        rw [hpair] at h1
        simpa using h1
      refine ⟨deleteCookies a.cookieFile st1, ?_, ?_⟩
      · rw [scrapeLoop, hpair, hmsg]
      · exact lookupFile_delete_self a.cookieFile st1

/-- Witness for the amended C1: a concrete failing attempt (hard
navigation error) on an account whose cookie file exists. -/
theorem C1_failed_attempt_deletes_session_witness :
    ∃ st', scrapeLoop (fun _ =>
        ⟨true, false, false, false, "https://keywordtool.io/user/login",
          "", "", [], "", [], "", [], none, none, some "boom", none⟩)
        "kw" ⟨"google", "suggestions", 0, none⟩ [⟨"a@b.c", "pw", "f1"⟩] 0
        [] ⟨[("f1", FileContent.json (some ["stale"]) (some "UA0"))], [],
          [⟨"a@b.c", "pw", "f1"⟩]⟩ =
      scrapeLoop (fun _ =>
        ⟨true, false, false, false, "https://keywordtool.io/user/login",
          "", "", [], "", [], "", [], none, none, some "boom", none⟩)
        "kw" ⟨"google", "suggestions", 0, none⟩ [] 1
        [("a@b.c", attemptErrMsg
          ⟨true, false, false, false, "https://keywordtool.io/user/login",
            "", "", [], "", [], "", [], none, none, some "boom", none⟩)]
        st' ∧
      lookupFile "f1" st'.files = none := by
  have h := C1_failed_attempt_deletes_session (fun _ =>
      ⟨true, false, false, false, "https://keywordtool.io/user/login",
        "", "", [], "", [], "", [], none, none, some "boom", none⟩)
    "kw" ⟨"google", "suggestions", 0, none⟩ ⟨"a@b.c", "pw", "f1"⟩ [] 0 []
    ⟨[("f1", FileContent.json (some ["stale"]) (some "UA0"))], [],
      [⟨"a@b.c", "pw", "f1"⟩]⟩ (by decide)
  simpa using h

/-! ## C10: the configured account list is never mutated -/

theorem saveCookies_configAccounts (f : String) (c : List String)
    (ua : String) (st : St) :
    (saveCookies f c ua st).configAccounts = st.configAccounts := rfl

theorem deleteCookies_configAccounts (f : String) (st : St) :
    (deleteCookies f st).configAccounts = st.configAccounts := rfl

theorem loginIfNeeded_configAccounts (env : AttemptEnv) (acct : Account)
    (st : St) :
    ((loginIfNeeded env acct st).st).configAccounts = st.configAccounts := by
  unfold loginIfNeeded
  split
  · rfl
  · split
    · rfl
    · split
      · rfl
      · split
        · rfl
        · rfl

theorem tryWithAccount_configAccounts (env : AttemptEnv) (acct : Account)
    (keyword : String) (opts : ScrapeOptions) (st : St) :
    ((tryWithAccount env acct keyword opts st).2).configAccounts =
      st.configAccounts := by
  unfold tryWithAccount
  cases hb : env.failBeforeLogin with
  | some msg => rfl
  | none =>
    cases ha : env.failAfterLogin with
    | some msg =>
      simp only
      exact loginIfNeeded_configAccounts env acct st
    | none =>
      simp only
      split
      · split
        · exact loginIfNeeded_configAccounts env acct st
        · exact loginIfNeeded_configAccounts env acct st
      · exact loginIfNeeded_configAccounts env acct st

theorem scrapeLoop_configAccounts (envs : Nat → AttemptEnv)
    (keyword : String) (opts : ScrapeOptions) :
    ∀ (accounts : List Account) (i : Nat)
      (errs : List (String × String)) (st : St),
    ((scrapeLoop envs keyword opts accounts i errs st).2).configAccounts =
      st.configAccounts := by
  intro accounts
  induction accounts with
  | nil => intro i errs st; rfl
  | cons a rest ih =>
    intro i errs st
    have hpres := tryWithAccount_configAccounts (envs i) a keyword opts st
    cases hpair : tryWithAccount (envs i) a keyword opts st with
    | mk o st1 =>
      rw [hpair] at hpres
      cases o with
      | ok r =>
        rw [scrapeLoop, hpair]
        exact hpres
      | error e =>
        rw [scrapeLoop, hpair]
        show ((scrapeLoop envs keyword opts rest (i + 1)
          (errs ++ [(a.email, e)])
          (deleteCookies a.cookieFile st1)).2).configAccounts = _
        rw [ih (i + 1) (errs ++ [(a.email, e)])
          (deleteCookies a.cookieFile st1)]
        exact hpres

/-- C10: `scrapeKeywords` never mutates the configured account list — the
cookie-priority sort operates on a clone, so after any call the
configuration holds the same accounts in the same order as before. -/
theorem C10_config_accounts_unchanged (envs : Nat → AttemptEnv)
    (keyword : String) (opts : ScrapeOptions) (st : St) :
    ((scrapeKeywords envs keyword opts st).2).configAccounts =
      st.configAccounts := by
  unfold scrapeKeywords
  cases hp : platformUrl opts.platform with
  | none => rfl
  | some u =>
    simp only
    split
    · rfl
    · exact scrapeLoop_configAccounts envs keyword opts
        (sortAccounts st st.configAccounts) 0 [] st

end KT
